/-
Verification of the ride-hailing service in src/main.py.

The embedding models the Postgres table `rides_v3` as a partial map from
ride id to a `Ride` row, and each HTTP handler as a function from the
store (plus the parameters the handler reads from requests, clocks or
external services) to the updated store and the handler's outcome.
Python floats are modelled as exact rationals where stored, and the
haversine computation is carried out over the reals.
-/
import Mathlib

open Real

/-! ## Numeric helpers: `math.radians`, `math.atan2`, Python `round(x, 2)` -/

/-- `math.radians x = x * pi / 180`. -/
noncomputable def radians (x : ℝ) : ℝ := x * π / 180

/-- `math.atan2 y x`, the two-argument arctangent with the usual
quadrant conventions (`atan2 0 0 = 0`, as in Python). -/
noncomputable def atan2 (y x : ℝ) : ℝ :=
  if 0 < x then arctan (y / x)
  else if x = 0 then
    (if 0 < y then π / 2 else if y < 0 then -(π / 2) else 0)
  else
    (if 0 ≤ y then arctan (y / x) + π else arctan (y / x) - π)

/-- Python `round` to an integer: round half to even (banker's rounding). -/
noncomputable def roundHalfEven (y : ℝ) : ℤ :=
  if Int.fract y = 1 / 2 then 2 * round (y / 2) else round y

/-- Python `round(x, 2)`: round to two decimal places, half to even. -/
noncomputable def pyRound2 (x : ℝ) : ℚ := (roundHalfEven (x * 100) : ℚ) / 100

/-! ## `calculate_distance` (src/main.py lines 73–82) -/

/-- `calculate_distance(lat1, lon1, lat2, lon2)`: haversine great-circle
distance with Earth radius `R = 6371`; returns `0.0` when `lat1` or
`lon1` is `None`.  The first point comes from nullable database columns,
so it is passed as `Option ℚ`; the second point is the hardcoded mock
destination. -/
noncomputable def calculate_distance (lat1 lon1 : Option ℚ) (lat2 lon2 : ℚ) : ℝ :=
  match lat1, lon1 with
  | some lat1, some lon1 =>
    let R : ℝ := 6371
    let dLat := radians ((lat2 : ℝ) - (lat1 : ℝ))
    let dLon := radians ((lon2 : ℝ) - (lon1 : ℝ))
    let a := Real.sin (dLat / 2) * Real.sin (dLat / 2) +
      Real.cos (radians (lat1 : ℝ)) * Real.cos (radians (lat2 : ℝ)) *
      Real.sin (dLon / 2) * Real.sin (dLon / 2)
    let c := 2 * atan2 (Real.sqrt a) (Real.sqrt (1 - a))
    R * c
  | _, _ => 0.0

/-! ## Data model: the `rides_v3` table -/

/-- One row of the `rides_v3` table.  `pickup_lat`/`pickup_long` are
nullable `DOUBLE PRECISION` columns; `fare` is `DECIMAL(10, 2)`;
timestamps are abstracted to `Option Nat` instants. -/
structure Ride where
  rider_id : Int
  driver_id : Int
  pickup_lat : Option ℚ
  pickup_long : Option ℚ
  status : String
  fare : ℚ
  created_at : Nat
  start_time : Option Nat
  end_time : Option Nat
  payment_status : String
deriving DecidableEq, Repr

/-- The ride store: `id SERIAL PRIMARY KEY` makes ids unique, so the
table is a partial map from id to row. -/
def Store := Nat → Option Ride

/-- An aborted handler: `HTTPException(status_code, detail)`. -/
structure HTTPError where
  status_code : Nat
  detail : Option String
deriving DecidableEq, Repr

/-! ## The HTTP handlers (src/main.py lines 124–239)

Each handler returns the store after its SQL statements ran together
with its outcome (`Except.error` models a raised `HTTPException`).
Each handler also broadcasts a `RIDE_UPDATE` message on the
`ConnectionManager`; broadcasting is modelled separately below. -/

/-- `create_ride` (lines 124–153): `nearest` is the result of the Redis
`GEOSEARCH` for drivers within the configured radius, already sorted by
distance; `newId` is the fresh id the `SERIAL` column assigns.  With no
driver found it raises 404 "No drivers found nearby"; otherwise it
inserts a REQUESTED ride for the nearest driver and returns its id. -/
def create_ride (s : Store) (nearest : List Nat) (rider_id : Int)
    (pickup_lat pickup_long : ℚ) (newId : Nat) (now : Nat) :
    Store × Except HTTPError Nat :=
  match nearest with
  | [] => (s, .error ⟨404, some "No drivers found nearby"⟩)
  | d :: _ =>
    (fun i => if i = newId then
        some { rider_id := rider_id, driver_id := (d : Int),
               pickup_lat := some pickup_lat, pickup_long := some pickup_long,
               status := "REQUESTED", fare := 0, created_at := now,
               start_time := none, end_time := none,
               payment_status := "PENDING" }
      else s i,
     .ok newId)

/-- The `UPDATE ... WHERE id=$1 AND status='REQUESTED'` of `accept_ride`:
returns the new table and the number of rows the update touched. -/
def acceptUpdate (s : Store) (rid : Nat) : Store × Nat :=
  match s rid with
  | some r =>
    if r.status = "REQUESTED" then
      (fun i => if i = rid then some { r with status := "ACCEPTED" } else s i, 1)
    else (s, 0)
  | none => (s, 0)

/-- asyncpg returns the command tag `"UPDATE n"`; the code tests
`"0" in result`, i.e. whether the character `'0'` occurs in the tag.
`"UPDATE "` itself contains no `'0'`, so the test holds exactly when the
decimal digit characters of the row count (`Nat.toDigits 10 n`, which is
what `toString` renders) include `'0'`. -/
def tagHasZero (n : Nat) : Bool := (Nat.toDigits 10 n).contains '0'

/-- `accept_ride` (lines 164–177): compare-and-swap from REQUESTED to
ACCEPTED; raises 409 when no row was updated. -/
def accept_ride (s : Store) (ride_id : Nat) : Store × Except HTTPError String :=
  let (s', n) := acceptUpdate s ride_id
  if tagHasZero n then (s', .error ⟨409, some "Ride already taken or cancelled"⟩)
  else (s', .ok "accepted")

/-- `start_trip` (lines 180–188): conditional update from ACCEPTED to
IN_PROGRESS setting `start_time`; the row count is not checked and the
handler answers `"started"` unconditionally. -/
def start_trip (s : Store) (id : Nat) (now : Nat) : Store × Except HTTPError String :=
  (fun i => if i = id then
      match s i with
      | some r =>
        if r.status = "ACCEPTED" then
          some { r with status := "IN_PROGRESS", start_time := some now }
        else some r
      | none => none
    else s i,
   .ok "started")

/-- `pause_trip` (lines 191–198): `UPDATE rides_v3 SET status='PAUSED'
WHERE id=$1` — no status guard, no existence check, always answers
`"paused"`. -/
def pause_trip (s : Store) (id : Nat) : Store × Except HTTPError String :=
  (fun i => if i = id then (s i).map (fun r => { r with status := "PAUSED" }) else s i,
   .ok "paused")

/-- `end_trip` (lines 201–224): 404 when the ride does not exist; if the
ride is already COMPLETED, return the stored fare without any write;
otherwise compute the fare from the haversine distance to the mock
destination `(13.0, 77.6)` and complete the ride. -/
noncomputable def end_trip (s : Store) (id : Nat) (now : Nat) :
    Store × Except HTTPError (String × ℚ) :=
  let drop_lat : ℚ := 13.0
  let drop_long : ℚ := 77.6
  match s id with
  | none => (s, .error ⟨404, none⟩)
  | some ride =>
    if ride.status = "COMPLETED" then (s, .ok ("ended", ride.fare))
    else
      let dist_km := calculate_distance ride.pickup_lat ride.pickup_long drop_lat drop_long
      let fare := pyRound2 (50 + dist_km * 12)
      (fun i => if i = id then
          some { ride with status := "COMPLETED", end_time := some now, fare := fare }
        else s i,
       .ok ("ended", fare))

/-- `process_payment` (lines 227–239): `success` is the outcome of the
mocked external payment oracle; the handler writes `payment_status`
(PAID or FAILED) for the ride and touches nothing else. -/
def process_payment (s : Store) (ride_id : Nat) (success : Bool) : Store × String :=
  let status := if success then "PAID" else "FAILED"
  (fun i => if i = ride_id then (s i).map (fun r => { r with payment_status := status })
    else s i,
   status)

/-! ## `ConnectionManager.broadcast` (src/main.py lines 56–70) -/

/-- A websocket connection as the broadcaster sees it: whether sending
still succeeds and the messages delivered so far. -/
structure Conn (M : Type) where
  alive : Bool
  received : List M
deriving DecidableEq, Repr

/-- `websocket.send_json`: delivers on a live connection, raises on a
closed one. -/
def sendJson {M : Type} (c : Conn M) (m : M) : Except Unit (Conn M) :=
  if c.alive then .ok { c with received := c.received ++ [m] } else .error ()

/-- `ConnectionManager.broadcast`: try to send to every connection in
order; a failed send is swallowed (`except: pass`) and the loop goes on. -/
def broadcast {M : Type} (conns : List (Conn M)) (m : M) : List (Conn M) :=
  conns.map (fun c => match sendJson c m with | .ok c' => c' | .error _ => c)

/-- A sequence of `broadcast` calls, one per published event, in order. -/
def publishAll {M : Type} (conns : List (Conn M)) (ms : List M) : List (Conn M) :=
  ms.foldl broadcast conns

/-! ## Sequences of `accept` calls on one ride -/

/-- Run `k` consecutive `accept_ride` calls on the same ride, collecting
each call's outcome. -/
def runAccepts (s : Store) (rid : Nat) : Nat → Store × List (Except HTTPError String)
  | 0 => (s, [])
  | k + 1 =>
    ((runAccepts (accept_ride s rid).1 rid k).1,
     (accept_ride s rid).2 :: (runAccepts (accept_ride s rid).1 rid k).2)

/-- Whether a handler outcome is a success. -/
def isOk {α : Type} : Except HTTPError α → Bool
  | .ok _ => true
  | .error _ => false

/-! ## Sample data for concrete evaluations -/

/-- A ride at the demo pickup point `(12.9716, 77.5946)` in a given
status. -/
def sampleRide (st : String) : Ride :=
  { rider_id := 99, driver_id := 101, pickup_lat := some 12.9716,
    pickup_long := some 77.5946, status := st, fare := 0, created_at := 0,
    start_time := none, end_time := none, payment_status := "PENDING" }

/-- A store holding exactly one ride. -/
def singleStore (rid : Nat) (r : Ride) : Store :=
  fun i => if i = rid then some r else none

/-- The empty store. -/
def emptyStore : Store := fun _ => none

def reqStore : Store := singleStore 1 (sampleRide "REQUESTED")

def pausedStore : Store := singleStore 1 (sampleRide "PAUSED")

def progStore : Store := singleStore 1 (sampleRide "IN_PROGRESS")

def accStore : Store := singleStore 1 (sampleRide "ACCEPTED")

def doneRide : Ride :=
  { sampleRide "COMPLETED" with fare := 88.54, end_time := some 10 }

def doneStore : Store := singleStore 1 doneRide

def nullRide : Ride :=
  { sampleRide "IN_PROGRESS" with pickup_lat := none, pickup_long := none }

def nullStore : Store := singleStore 2 nullRide

/-- The haversine `a` term of `calculate_distance` at the demo pickup
`(12.9716, 77.5946)` and the mock destination `(13.0, 77.6)`. -/
noncomputable def havA : ℝ :=
  Real.sin (radians (13 - 12.9716) / 2) * Real.sin (radians (13 - 12.9716) / 2) +
  Real.cos (radians 12.9716) * Real.cos (radians 13) *
  Real.sin (radians (77.6 - 77.5946) / 2) * Real.sin (radians (77.6 - 77.5946) / 2)

/-- The distance `calculate_distance` computes for the demo pickup and
the mock destination. -/
noncomputable def refDist : ℝ :=
  calculate_distance (some 12.9716) (some 77.5946) 13 77.6

/-! ## Shared helper lemmas -/

theorem tagHasZero_zero : tagHasZero 0 = true := by decide

theorem tagHasZero_one : tagHasZero 1 = false := by decide

/-- `roundHalfEven` agrees with the unique integer in the open
half-unit window around `y`. -/
theorem roundHalfEven_eq_of_window (n : ℤ) (y : ℝ)
    (h1 : (n : ℝ) - 1 / 2 < y) (h2 : y < (n : ℝ) + 1 / 2) :
    roundHalfEven y = n := by
  have hfl : ⌊y + 1 / 2⌋ = n := by
    rw [Int.floor_eq_iff]
    exact ⟨by linarith, by linarith⟩
  have hr : round y = n := by rw [round_eq, hfl]
  unfold roundHalfEven
  rw [if_neg, hr]
  intro hf
  have hy : y = (⌊y⌋ : ℝ) + 1 / 2 := by
    have := Int.self_sub_floor y
    rw [hf] at this
    linarith
  have hlt : (n : ℝ) - 1 < (⌊y⌋ : ℝ) := by linarith
  have hgt : (⌊y⌋ : ℝ) < (n : ℝ) := by linarith
  have hlt' : n - 1 < ⌊y⌋ := by exact_mod_cast hlt
  have hgt' : ⌊y⌋ < n := by exact_mod_cast hgt
  omega

/-- Failed `accept` compare-and-swap: when the ride is absent or not
REQUESTED, the store is untouched and the handler raises 409. -/
theorem accept_fail_of_not_requested (s : Store) (rid : Nat)
    (h : ∀ r, s rid = some r → r.status ≠ "REQUESTED") :
    accept_ride s rid = (s, .error ⟨409, some "Ride already taken or cancelled"⟩) := by
  rcases hs : s rid with _ | r
  · simp [accept_ride, acceptUpdate, hs, tagHasZero_zero]
  · have hr := h r hs
    simp [accept_ride, acceptUpdate, hs, hr, tagHasZero_zero]

/-- Successful `accept` compare-and-swap from REQUESTED. -/
theorem accept_ok_of_requested (s : Store) (rid : Nat) (r : Ride)
    (hs : s rid = some r) (hr : r.status = "REQUESTED") :
    accept_ride s rid =
      (fun i => if i = rid then some { r with status := "ACCEPTED" } else s i,
       .ok "accepted") := by
  simp [accept_ride, acceptUpdate, hs, hr, tagHasZero_one]

/-! ## C7: no driver found means no ride created -/

/-- C7: when the geosearch result is empty, `create_ride` fails with the
client-visible not-found outcome 404 "No drivers found nearby" and the
ride store is returned unchanged — no ride record is created. -/
theorem create_ride_no_driver (s : Store) (rider_id : Int)
    (pickup_lat pickup_long : ℚ) (newId now : Nat) :
    create_ride s [] rider_id pickup_lat pickup_long newId now =
      (s, .error ⟨404, some "No drivers found nearby"⟩) := rfl

/-! ## C6: pause's guards -/

/-- C6 (amended): `pause_trip` has no guard at all.  It always answers
success: for an existing ride of any status it sets the status to
PAUSED, and for a nonexistent ride id it is a successful no-op — there
is no NotFound. -/
theorem pause_no_guard (s : Store) (id : Nat) :
    (pause_trip s id).2 = .ok "paused" ∧
    (s id = none → (pause_trip s id).1 = s) ∧
    (∀ r, s id = some r →
      (pause_trip s id).1 id = some { r with status := "PAUSED" }) := by
  refine ⟨rfl, ?_, ?_⟩
  · intro h
    funext i
    by_cases hi : i = id <;> simp [pause_trip, hi, h]
  · intro r h
    simp [pause_trip, h]

/-- C6 witness: pausing an existing IN_PROGRESS ride marks it PAUSED. -/
theorem pause_no_guard_witness :
    (pause_trip progStore 1).1 1 = some { sampleRide "IN_PROGRESS" with status := "PAUSED" } :=
  (pause_no_guard progStore 1).2.2 (sampleRide "IN_PROGRESS") rfl

/-- C6 counterexample: pausing a nonexistent ride id does succeed — the
handler answers `"paused"` with no NotFound and the store is unchanged. -/
theorem pause_notfound_cex :
    pause_trip emptyStore 7 = (emptyStore, .ok "paused") := by
  have h1 : (pause_trip emptyStore 7).1 = emptyStore := by
    funext i
    by_cases hi : i = 7 <;> simp [pause_trip, emptyStore, hi]
  exact Prod.ext_iff.mpr ⟨h1, rfl⟩

/-! ## C5: rejection of failed preconditions -/

/-- C5 (amended): `accept_ride` rejects a failed status precondition
with a Conflict (409) and leaves the store unchanged, but `start_trip`
does not signal failure: on a ride whose status is not ACCEPTED its
conditional update changes nothing and the handler still returns
success. -/
theorem conditional_update_rejection (s : Store) (rid now : Nat) :
    (∀ r, s rid = some r → r.status ≠ "REQUESTED" →
      accept_ride s rid = (s, .error ⟨409, some "Ride already taken or cancelled"⟩)) ∧
    (s rid = none →
      accept_ride s rid = (s, .error ⟨409, some "Ride already taken or cancelled"⟩)) ∧
    (∀ r, s rid = some r → r.status ≠ "ACCEPTED" →
      start_trip s rid now = (s, .ok "started")) := by
  refine ⟨?_, ?_, ?_⟩
  · intro r hs hr
    exact accept_fail_of_not_requested s rid (fun r' hr' => by
      rw [hs] at hr'
      cases hr'
      exact hr)
  · intro hs
    exact accept_fail_of_not_requested s rid (fun r' hr' => by
      rw [hs] at hr'
      cases hr')
  · intro r hs hr
    have h1 : (start_trip s rid now).1 = s := by
      funext i
      by_cases hi : i = rid <;> simp [start_trip, hi, hs, hr]
    exact Prod.ext_iff.mpr ⟨h1, rfl⟩

/-- C5 witness: on a PAUSED ride, accept raises 409 Conflict while
start silently answers success. -/
theorem conditional_update_rejection_witness :
    accept_ride pausedStore 1 =
      (pausedStore, .error ⟨409, some "Ride already taken or cancelled"⟩) ∧
    start_trip pausedStore 1 5 = (pausedStore, .ok "started") :=
  ⟨(conditional_update_rejection pausedStore 1 5).1 (sampleRide "PAUSED") rfl
      (by decide),
   (conditional_update_rejection pausedStore 1 5).2.2 (sampleRide "PAUSED") rfl
      (by decide)⟩

/-- C5 counterexample: `start_trip` on a ride whose status is REQUESTED
(not ACCEPTED) returns success `"started"` with the store unchanged,
instead of signalling the failed precondition to the caller. -/
theorem start_silent_cex :
    start_trip reqStore 1 5 = (reqStore, .ok "started") := by
  have h1 : (start_trip reqStore 1 5).1 = reqStore := by
    funext i
    by_cases hi : i = 1 <;>
      simp [start_trip, reqStore, singleStore, sampleRide, hi]
  exact Prod.ext_iff.mpr ⟨h1, rfl⟩

/-! ## C8: payment frame -/

/-- C8: `process_payment` sets `payment_status` to exactly one of PAID
or FAILED on the target ride and leaves every other field — status,
fare, driver id, start and end time — and every other ride unchanged. -/
theorem process_payment_frame (s : Store) (rid : Nat) (success : Bool) (r : Ride)
    (h : s rid = some r) :
    ((process_payment s rid success).2 = "PAID" ∨
      (process_payment s rid success).2 = "FAILED") ∧
    (process_payment s rid success).1 rid =
      some { r with payment_status := (process_payment s rid success).2 } ∧
    (∀ i, i ≠ rid → (process_payment s rid success).1 i = s i) ∧
    (∀ r', (process_payment s rid success).1 rid = some r' →
      r'.status = r.status ∧ r'.fare = r.fare ∧ r'.driver_id = r.driver_id ∧
      r'.start_time = r.start_time ∧ r'.end_time = r.end_time) := by
  have hrow : (process_payment s rid success).1 rid =
      some { r with payment_status := (process_payment s rid success).2 } := by
    cases success <;> simp [process_payment, h]
  refine ⟨?_, hrow, ?_, ?_⟩
  · cases success
    · exact Or.inr rfl
    · exact Or.inl rfl
  · intro i hi
    cases success <;> simp [process_payment, hi]
  · intro r' hr'
    rw [hrow] at hr'
    cases hr'
    exact ⟨rfl, rfl, rfl, rfl, rfl⟩

/-- C8 witness: paying a COMPLETED ride with a successful oracle yields
PAID and the completed row otherwise intact. -/
theorem process_payment_frame_witness :
    ((process_payment doneStore 1 true).2 = "PAID" ∨
      (process_payment doneStore 1 true).2 = "FAILED") ∧
    (process_payment doneStore 1 true).1 1 =
      some { doneRide with payment_status := (process_payment doneStore 1 true).2 } :=
  ⟨(process_payment_frame doneStore 1 true doneRide rfl).1,
   (process_payment_frame doneStore 1 true doneRide rfl).2.1⟩

/-! ## `end_trip` branch lemmas (shared) -/

/-- Reading back the id just written in a pointwise store update. -/
theorem singleUpdate_self (s : Store) (rid : Nat) (r : Ride) :
    (fun i => if i = rid then some r else s i) rid = some r := by simp

/-- `end_trip` on a missing ride id raises a bare 404. -/
theorem end_trip_none (s : Store) (rid now : Nat) (hs : s rid = none) :
    end_trip s rid now = (s, .error ⟨404, none⟩) := by
  simp [end_trip, hs]

/-- `end_trip` on an already-COMPLETED ride is a pure read. -/
theorem end_trip_completed (s : Store) (rid now : Nat) (r : Ride)
    (hs : s rid = some r) (hc : r.status = "COMPLETED") :
    end_trip s rid now = (s, .ok ("ended", r.fare)) := by
  simp [end_trip, hs, hc]

/-- `end_trip` on any existing ride not yet COMPLETED computes the fare
over the haversine distance and completes the ride. -/
theorem end_trip_not_completed (s : Store) (rid now : Nat) (r : Ride)
    (hs : s rid = some r) (hc : r.status ≠ "COMPLETED") :
    end_trip s rid now =
      (fun i => if i = rid then
          some { r with
                  status := "COMPLETED"
                  end_time := some now
                  fare := pyRound2 (50 +
                    calculate_distance r.pickup_lat r.pickup_long 13 77.6 * 12) }
        else s i,
       .ok ("ended", pyRound2 (50 +
         calculate_distance r.pickup_lat r.pickup_long 13 77.6 * 12))) := by
  simp [end_trip, hs, hc]
  norm_num

/-! ## C2: ending an already-completed ride is an idempotent read -/

/-- C2: ending a COMPLETED ride returns the stored fare without
recomputing it and performs no write at all (so `end_time` is not
mutated); consequently ending a ride twice returns the same fare both
times and the second call leaves the store exactly as the first left
it. -/
theorem end_trip_idempotent (s : Store) (rid now now' : Nat) :
    (∀ r, s rid = some r → r.status = "COMPLETED" →
      end_trip s rid now = (s, .ok ("ended", r.fare))) ∧
    (∀ f, (end_trip s rid now).2 = .ok ("ended", f) →
      end_trip (end_trip s rid now).1 rid now' =
        ((end_trip s rid now).1, .ok ("ended", f))) := by
  constructor
  · intro r hr hc
    exact end_trip_completed s rid now r hr hc
  · intro f hf
    rcases hsr : s rid with _ | r
    · rw [end_trip_none s rid now hsr] at hf
      cases hf
    · by_cases hc : r.status = "COMPLETED"
      · rw [end_trip_completed s rid now r hsr hc] at hf ⊢
        cases hf
        exact end_trip_completed s rid now' r hsr hc
      · rw [end_trip_not_completed s rid now r hsr hc] at hf ⊢
        cases hf
        exact end_trip_completed _ rid now'
          { r with
             status := "COMPLETED"
             end_time := some now
             fare := pyRound2 (50 +
               calculate_distance r.pickup_lat r.pickup_long 13 77.6 * 12) }
          (singleUpdate_self s rid _) rfl

/-- C2 witness: ending the completed demo ride again returns its stored
fare 88.54 and leaves the store untouched. -/
theorem end_trip_idempotent_witness :
    end_trip doneStore 1 99 = (doneStore, .ok ("ended", (88.54 : ℚ))) :=
  (end_trip_idempotent doneStore 1 99 0).1 doneRide rfl rfl

/-! ## C4: which statuses `end` transitions from -/

/-- C4 (amended): `end_trip` checks only existence and the COMPLETED
idempotency case.  Any existing ride whose status is not COMPLETED —
including REQUESTED, ACCEPTED and PAUSED, not just IN_PROGRESS — is
transitioned straight to COMPLETED with a computed fare; a missing ride
yields 404; an already-COMPLETED ride is left untouched. -/
theorem end_trip_any_status (s : Store) (rid now : Nat) :
    (s rid = none → end_trip s rid now = (s, .error ⟨404, none⟩)) ∧
    (∀ r, s rid = some r → r.status ≠ "COMPLETED" →
      ((end_trip s rid now).1 rid).map Ride.status = some "COMPLETED" ∧
      isOk (end_trip s rid now).2 = true) ∧
    (∀ r, s rid = some r → r.status = "COMPLETED" →
      (end_trip s rid now).1 = s) := by
  refine ⟨end_trip_none s rid now, ?_, ?_⟩
  · intro r hs hc
    rw [end_trip_not_completed s rid now r hs hc]
    constructor
    · simp
    · rfl
  · intro r hs hc
    rw [end_trip_completed s rid now r hs hc]

/-- C4 witness: ending a PAUSED ride (never IN_PROGRESS) completes it. -/
theorem end_trip_any_status_witness :
    ((end_trip pausedStore 1 7).1 1).map Ride.status = some "COMPLETED" ∧
    isOk (end_trip pausedStore 1 7).2 = true :=
  (end_trip_any_status pausedStore 1 7).2.1 (sampleRide "PAUSED") rfl (by decide)

/-- C4 counterexample: a ride still in REQUESTED status — which never
passed through ACCEPTED or IN_PROGRESS — is transitioned to COMPLETED
by `end_trip`, contradicting the claim that `end` cannot skip the
required predecessor states. -/
theorem end_trip_skips_states_cex :
    (reqStore 1).map Ride.status = some "REQUESTED" ∧
    ((end_trip reqStore 1 7).1 1).map Ride.status = some "COMPLETED" := by
  constructor
  · rfl
  · rw [end_trip_not_completed reqStore 1 7 (sampleRide "REQUESTED") rfl (by decide)]
    simp

/-! ## C10: missing pickup coordinates -/

/-- C10: `calculate_distance` returns 0 whenever the first point's
latitude or longitude is `None`, so ending a not-yet-completed ride with
missing pickup coordinates succeeds and charges exactly the base fare
`round(50 + 12 * 0, 2) = 50`. -/
theorem end_trip_null_pickup (s : Store) (rid now : Nat) :
    (∀ lon lat2 lon2, calculate_distance none lon lat2 lon2 = 0) ∧
    (∀ lat lat2 lon2, calculate_distance lat none lat2 lon2 = 0) ∧
    (∀ r, s rid = some r → r.status ≠ "COMPLETED" →
      (r.pickup_lat = none ∨ r.pickup_long = none) →
      (end_trip s rid now).2 = .ok ("ended", 50)) := by
  have hz : ∀ lat lon lat2 lon2, (lat = none ∨ lon = none) →
      calculate_distance lat lon lat2 lon2 = 0 := by
    intro lat lon lat2 lon2 h
    rcases h with h | h
    · subst h
      cases lon <;> norm_num [calculate_distance]
    · subst h
      cases lat <;> norm_num [calculate_distance]
  have h50 : pyRound2 50 = 50 := by
    have : (50 : ℝ) * 100 = ((5000 : ℤ) : ℝ) := by norm_num
    unfold pyRound2
    rw [this, roundHalfEven_eq_of_window 5000 ((5000 : ℤ) : ℝ) (by norm_num)
      (by norm_num)]
    norm_num
  refine ⟨fun lon lat2 lon2 => hz none lon lat2 lon2 (Or.inl rfl),
    fun lat lat2 lon2 => hz lat none lat2 lon2 (Or.inr rfl), ?_⟩
  intro r hs hc hnull
  rw [end_trip_not_completed s rid now r hs hc]
  rw [hz r.pickup_lat r.pickup_long 13 77.6 hnull] at *
  simp [h50]

/-- C10 witness: ending the demo ride with missing pickup coordinates
returns fare 50. -/
theorem end_trip_null_pickup_witness :
    (end_trip nullStore 2 3).2 = .ok ("ended", (50 : ℚ)) :=
  (end_trip_null_pickup nullStore 2 3).2.2 nullRide rfl (by decide) (Or.inl rfl)

/-! ## C1: at most one accept wins -/

/-- Once the ride is not in REQUESTED status (or absent), every further
`accept_ride` call fails with the 409 Conflict and never changes the
store. -/
theorem runAccepts_all_fail (s : Store) (rid : Nat) (k : Nat)
    (h : ∀ r, s rid = some r → r.status ≠ "REQUESTED") :
    (runAccepts s rid k).1 = s ∧
    ∀ e ∈ (runAccepts s rid k).2,
      e = .error ⟨409, some "Ride already taken or cancelled"⟩ := by
  induction k with
  | zero =>
    exact ⟨rfl, fun e he => absurd he (List.not_mem_nil e)⟩
  | succ k ih =>
    have hf := accept_fail_of_not_requested s rid h
    constructor
    · show (runAccepts (accept_ride s rid).1 rid k).1 = s
      rw [hf]
      exact ih.1
    · intro e he
      rw [show (runAccepts s rid (k + 1)).2 =
          (accept_ride s rid).2 :: (runAccepts (accept_ride s rid).1 rid k).2 from rfl,
        hf] at he
      rcases List.mem_cons.mp he with he | he
      · exact he
      · exact ih.2 e he

/-- C1: `accept_ride` is a single compare-and-swap — it moves the ride
to ACCEPTED exactly when the current status is REQUESTED and otherwise
rejects with the 409 Conflict — and therefore in any sequence of accept
calls on the same ride at most one succeeds while every other call
fails with that Conflict. -/
theorem accept_at_most_one_success (s : Store) (rid k : Nat) :
    (accept_ride s rid =
      if (s rid).map Ride.status = some "REQUESTED" then
        (fun i => if i = rid then (s i).map (fun r => { r with status := "ACCEPTED" })
          else s i,
         .ok "accepted")
      else (s, .error ⟨409, some "Ride already taken or cancelled"⟩)) ∧
    List.countP (fun e => isOk e) (runAccepts s rid k).2 ≤ 1 ∧
    (∀ e ∈ (runAccepts s rid k).2, isOk e = false →
      e = .error ⟨409, some "Ride already taken or cancelled"⟩) := by
  have hcas : accept_ride s rid =
      if (s rid).map Ride.status = some "REQUESTED" then
        (fun i => if i = rid then (s i).map (fun r => { r with status := "ACCEPTED" })
          else s i,
         .ok "accepted")
      else (s, .error ⟨409, some "Ride already taken or cancelled"⟩) := by
    rcases hs : s rid with _ | r
    · rw [if_neg (by simp [hs])]
      exact accept_fail_of_not_requested s rid (fun r hr => by rw [hs] at hr; cases hr)
    · by_cases hr : r.status = "REQUESTED"
      · rw [if_pos (by simp [hs, hr]), accept_ok_of_requested s rid r hs hr]
        refine Prod.ext_iff.mpr ⟨funext fun i => ?_, rfl⟩
        by_cases hi : i = rid <;> simp [hi, hs]
      · rw [if_neg (by simp [hs, hr])]
        exact accept_fail_of_not_requested s rid (fun r' hr' => by
          rw [hs] at hr'
          cases hr'
          exact hr)
  refine ⟨hcas, ?_⟩
  by_cases hreq : (s rid).map Ride.status = some "REQUESTED"
  · rcases hs : s rid with _ | r
    · rw [hs] at hreq
      cases hreq
    · cases k with
      | zero => exact ⟨Nat.zero_le 1, fun e he => absurd he (List.not_mem_nil e)⟩
      | succ k =>
        rw [hs] at hreq
        have hr : r.status = "REQUESTED" := by
          simpa using hreq
        have hok := accept_ok_of_requested s rid r hs hr
        have hnext : ∀ r', (accept_ride s rid).1 rid = some r' →
            r'.status ≠ "REQUESTED" := by
          intro r' hr'
          rw [hok] at hr'
          simp at hr'
          rw [← hr']
          simp
        have hrest := runAccepts_all_fail (accept_ride s rid).1 rid k hnext
        have hlist : (runAccepts s rid (k + 1)).2 =
            (accept_ride s rid).2 :: (runAccepts (accept_ride s rid).1 rid k).2 := rfl
        constructor
        · rw [hlist, List.countP_cons]
          have hz : List.countP (fun e => isOk e)
              (runAccepts (accept_ride s rid).1 rid k).2 = 0 := by
            rw [List.countP_eq_zero]
            intro e he
            rw [hrest.2 e he]
            decide
          rw [hz, hok]
          simp [isOk]
        · intro e he hfalse
          rw [hlist] at he
          rcases List.mem_cons.mp he with he | he
          · rw [hok] at he
            rw [he] at hfalse
            cases hfalse
          · exact hrest.2 e he
  · have hfail : ∀ r, s rid = some r → r.status ≠ "REQUESTED" := by
      intro r hr hcon
      exact hreq (by simp [hr, hcon])
    have hall := runAccepts_all_fail s rid k hfail
    constructor
    · have hz : List.countP (fun e => isOk e) (runAccepts s rid k).2 = 0 := by
        rw [List.countP_eq_zero]
        intro e he
        rw [hall.2 e he]
        decide
      rw [hz]
      exact Nat.zero_le 1
    · intro e he _
      exact hall.2 e he

/-- C1 witness: two accepts on a PAUSED ride — at most one success, and
a concrete rejected call is exactly the 409 Conflict. -/
theorem accept_at_most_one_success_witness :
    List.countP (fun e => isOk e) (runAccepts pausedStore 1 2).2 ≤ 1 ∧
    (Except.error ⟨409, some "Ride already taken or cancelled"⟩ :
        Except HTTPError String) =
      .error ⟨409, some "Ride already taken or cancelled"⟩ := by
  have hf : accept_ride pausedStore 1 =
      (pausedStore, .error ⟨409, some "Ride already taken or cancelled"⟩) :=
    accept_fail_of_not_requested pausedStore 1 (fun r hr => by
      rw [show pausedStore 1 = some (sampleRide "PAUSED") from rfl] at hr
      cases hr
      simp [sampleRide])
  refine ⟨(accept_at_most_one_success pausedStore 1 2).2.1, ?_⟩
  have hmem : (Except.error ⟨409, some "Ride already taken or cancelled"⟩ :
      Except HTTPError String) ∈ (runAccepts pausedStore 1 2).2 := by
    have hstep : (runAccepts pausedStore 1 2).2 =
        (accept_ride pausedStore 1).2 ::
          (runAccepts (accept_ride pausedStore 1).1 1 1).2 := rfl
    rw [hstep, hf]
    exact List.mem_cons_self _ _
  exact (accept_at_most_one_success pausedStore 1 2).2.2 _ hmem rfl

/-! ## C9: best-effort fan-out -/

/-- `broadcast` keeps the subscriber list intact and `publishAll` never
drops or reorders subscribers. -/
theorem publishAll_length {M : Type} (conns : List (Conn M)) (ms : List M) :
    (publishAll conns ms).length = conns.length := by
  induction ms generalizing conns with
  | nil => rfl
  | cons m ms ih =>
    show (publishAll (broadcast conns m) ms).length = conns.length
    rw [ih (broadcast conns m)]
    exact List.length_map conns _

/-- C9: `broadcast` is total — a subscriber whose send raises is
swallowed (`except: pass`), so no error reaches the publisher — and
after publishing any sequence of events each subscriber's final state
depends only on itself: a connected subscriber has received exactly the
published events appended in publish order, a dead one is skipped, and
either way the other subscribers are unaffected. -/
theorem broadcast_best_effort {M : Type} (conns : List (Conn M)) (ms : List M)
    (i : Nat) (c : Conn M) (h : conns[i]? = some c) :
    (publishAll conns ms).length = conns.length ∧
    (publishAll conns ms)[i]? =
      some (if c.alive then { c with received := c.received ++ ms } else c) := by
  refine ⟨publishAll_length conns ms, ?_⟩
  induction ms generalizing conns c with
  | nil =>
    show conns[i]? = _
    rw [h]
    obtain ⟨ca, cr⟩ := c
    cases ca <;> simp
  | cons m ms ih =>
    obtain ⟨ca, cr⟩ := c
    cases ca
    · have hstep : (broadcast conns m)[i]? = some (Conn.mk false cr) := by
        show (conns.map _)[i]? = _
        rw [List.getElem?_map, h]
        simp [sendJson]
      have hres := ih (broadcast conns m) (Conn.mk false cr) hstep
      show (publishAll (broadcast conns m) ms)[i]? = _
      rw [hres]
      simp
    · have hstep : (broadcast conns m)[i]? = some (Conn.mk true (cr ++ [m])) := by
        show (conns.map _)[i]? = _
        rw [List.getElem?_map, h]
        simp [sendJson]
      have hres := ih (broadcast conns m) (Conn.mk true (cr ++ [m])) hstep
      show (publishAll (broadcast conns m) ms)[i]? = _
      rw [hres]
      simp

/-- C9 witness: publishing two events to a live and a dead subscriber —
the live one receives both in order, unaffected by the dead one. -/
theorem broadcast_best_effort_witness :
    (publishAll [(⟨true, []⟩ : Conn Nat), ⟨false, []⟩] [1, 2]).length = 2 ∧
    (publishAll [(⟨true, []⟩ : Conn Nat), ⟨false, []⟩] [1, 2])[0]? =
      some (if (true : Bool) then (⟨true, [] ++ [1, 2]⟩ : Conn Nat)
        else ⟨true, []⟩) :=
  broadcast_best_effort [⟨true, []⟩, ⟨false, []⟩] [1, 2] 0 ⟨true, []⟩ rfl

/-! ## C3: the haversine fare at the reference coordinates -/

/-- `arctan` is below the identity on the nonnegative reals. -/
theorem arctan_le_self (x : ℝ) (h : 0 ≤ x) : arctan x ≤ x := by
  rcases eq_or_lt_of_le h with h0 | h0
  · rw [← h0, arctan_zero]
  · have hy : 0 < arctan x := by
      rw [← arctan_zero]
      exact arctan_strictMono h0
    have ht := Real.lt_tan hy (arctan_lt_pi_div_two x)
    rw [tan_arctan] at ht
    linarith

/-- `arctan` is above `x / (1 + x^2)` on the nonnegative reals. -/
theorem div_one_add_sq_le_arctan (x : ℝ) (h : 0 ≤ x) : x / (1 + x ^ 2) ≤ arctan x := by
  have hy : 0 ≤ arctan x := by
    rw [← arctan_zero]
    exact arctan_strictMono.monotone h
  have hsley : Real.sin (arctan x) ≤ arctan x := by
    rcases eq_or_lt_of_le hy with h0 | h0
    · rw [← h0]
      simp
    · exact le_of_lt (Real.sin_lt h0)
  have hsq : Real.sqrt (1 + x ^ 2) ≤ 1 + x ^ 2 := by
    rw [Real.sqrt_le_left (by positivity)]
    nlinarith [sq_nonneg x]
  have hpos : (0 : ℝ) < Real.sqrt (1 + x ^ 2) := Real.sqrt_pos.mpr (by positivity)
  have hdivs : x / (1 + x ^ 2) ≤ x / Real.sqrt (1 + x ^ 2) := by
    gcongr
  calc x / (1 + x ^ 2) ≤ x / Real.sqrt (1 + x ^ 2) := hdivs
    _ = Real.sin (arctan x) := (sin_arctan x).symm
    _ ≤ arctan x := hsley

/-- `refDist` in terms of the haversine `a` term. -/
theorem refDist_eq :
    refDist = 6371 * (2 * atan2 (Real.sqrt havA) (Real.sqrt (1 - havA))) := by
  unfold refDist calculate_distance havA
  push_cast
  rfl

set_option maxHeartbeats 2000000 in
/-- Rational window for the haversine `a` term at the reference
coordinates, from the Taylor bounds on `sin`/`cos` and the decimal
bounds on `π`. -/
theorem havA_bounds :
    (0.0000000635302 : ℝ) ≤ havA ∧ havA ≤ 0.0000000635320 := by
  have hpil := pi_gt_d6
  have hpiu := pi_lt_d6
  unfold havA radians
  set x1 : ℝ := (13 - 12.9716) * π / 180 / 2 with hx1
  set x2 : ℝ := (77.6 - 77.5946) * π / 180 / 2 with hx2
  set r1 : ℝ := 12.9716 * π / 180 with hr1
  set r2 : ℝ := 13 * π / 180 with hr2
  have hx1l : (0.0002478367 : ℝ) ≤ x1 := by rw [hx1]; linarith
  have hx1u : x1 ≤ 0.0002478368 := by rw [hx1]; linarith
  have hx2l : (0.0000471238 : ℝ) ≤ x2 := by rw [hx2]; linarith
  have hx2u : x2 ≤ 0.0000471239 := by rw [hx2]; linarith
  have hr1l : (0.2263970 : ℝ) ≤ r1 := by rw [hr1]; linarith
  have hr1u : r1 ≤ 0.2263972 := by rw [hr1]; linarith
  have hr2l : (0.2268927 : ℝ) ≤ r2 := by rw [hr2]; linarith
  have hr2u : r2 ≤ 0.2268929 := by rw [hr2]; linarith
  have hx1p : (0 : ℝ) < x1 := by linarith
  have hx2p : (0 : ℝ) < x2 := by linarith
  have hr1p : (0 : ℝ) < r1 := by linarith
  have hr2p : (0 : ℝ) < r2 := by linarith
  have hb1 := Real.sin_bound (x := x1) (by rw [abs_of_pos hx1p]; linarith)
  rw [abs_of_pos hx1p] at hb1
  have hcube1 : x1 ^ 3 ≤ (0.0002478368 : ℝ) ^ 3 :=
    pow_le_pow_left₀ (le_of_lt hx1p) hx1u 3
  have hquad1 : x1 ^ 4 ≤ (0.0002478368 : ℝ) ^ 4 :=
    pow_le_pow_left₀ (le_of_lt hx1p) hx1u 4
  have hs1l : (0.0002478366 : ℝ) ≤ Real.sin x1 := by
    have h := (abs_le.mp hb1).1
    linarith
  have hs1u : Real.sin x1 ≤ 0.0002478368 :=
    le_trans (le_of_lt (Real.sin_lt hx1p)) hx1u
  have hb2 := Real.sin_bound (x := x2) (by rw [abs_of_pos hx2p]; linarith)
  rw [abs_of_pos hx2p] at hb2
  have hcube2 : x2 ^ 3 ≤ (0.0000471239 : ℝ) ^ 3 :=
    pow_le_pow_left₀ (le_of_lt hx2p) hx2u 3
  have hquad2 : x2 ^ 4 ≤ (0.0000471239 : ℝ) ^ 4 :=
    pow_le_pow_left₀ (le_of_lt hx2p) hx2u 4
  have hs2l : (0.0000471237 : ℝ) ≤ Real.sin x2 := by
    have h := (abs_le.mp hb2).1
    linarith
  have hs2u : Real.sin x2 ≤ 0.0000471239 :=
    le_trans (le_of_lt (Real.sin_lt hx2p)) hx2u
  have hcb1 := Real.cos_bound (x := r1) (by rw [abs_of_pos hr1p]; linarith)
  rw [abs_of_pos hr1p] at hcb1
  have hr1sqU : r1 ^ 2 ≤ (0.2263972 : ℝ) ^ 2 :=
    pow_le_pow_left₀ (le_of_lt hr1p) hr1u 2
  have hr1sqL : (0.2263970 : ℝ) ^ 2 ≤ r1 ^ 2 :=
    pow_le_pow_left₀ (by norm_num) hr1l 2
  have hr1qdU : r1 ^ 4 ≤ (0.2263972 : ℝ) ^ 4 :=
    pow_le_pow_left₀ (le_of_lt hr1p) hr1u 4
  have hcos1l : (0.974235 : ℝ) ≤ Real.cos r1 := by
    have h := (abs_le.mp hcb1).1
    linarith
  have hcos1u : Real.cos r1 ≤ 0.974510 := by
    have h := (abs_le.mp hcb1).2
    linarith
  have hcb2 := Real.cos_bound (x := r2) (by rw [abs_of_pos hr2p]; linarith)
  rw [abs_of_pos hr2p] at hcb2
  have hr2sqU : r2 ^ 2 ≤ (0.2268929 : ℝ) ^ 2 :=
    pow_le_pow_left₀ (le_of_lt hr2p) hr2u 2
  have hr2sqL : (0.2268927 : ℝ) ^ 2 ≤ r2 ^ 2 :=
    pow_le_pow_left₀ (by norm_num) hr2l 2
  have hr2qdU : r2 ^ 4 ≤ (0.2268929 : ℝ) ^ 4 :=
    pow_le_pow_left₀ (le_of_lt hr2p) hr2u 4
  have hcos2l : (0.974121 : ℝ) ≤ Real.cos r2 := by
    have h := (abs_le.mp hcb2).1
    linarith
  have hcos2u : Real.cos r2 ≤ 0.974398 := by
    have h := (abs_le.mp hcb2).2
    linarith
  have hs1nn : (0 : ℝ) ≤ Real.sin x1 := by linarith
  have hs2nn : (0 : ℝ) ≤ Real.sin x2 := by linarith
  have hc1nn : (0 : ℝ) ≤ Real.cos r1 := by linarith
  have hc2nn : (0 : ℝ) ≤ Real.cos r2 := by linarith
  have hp1l : (0.0002478366 : ℝ) * 0.0002478366 ≤ Real.sin x1 * Real.sin x1 :=
    mul_le_mul hs1l hs1l (by norm_num) hs1nn
  have hp1u : Real.sin x1 * Real.sin x1 ≤ (0.0002478368 : ℝ) * 0.0002478368 :=
    mul_le_mul hs1u hs1u hs1nn (by norm_num)
  have hccl : (0.974235 : ℝ) * 0.974121 ≤ Real.cos r1 * Real.cos r2 :=
    mul_le_mul hcos1l hcos2l (by norm_num) hc1nn
  have hccu : Real.cos r1 * Real.cos r2 ≤ (0.974510 : ℝ) * 0.974398 :=
    mul_le_mul hcos1u hcos2u hc2nn (by norm_num)
  have hccnn : (0 : ℝ) ≤ Real.cos r1 * Real.cos r2 := mul_nonneg hc1nn hc2nn
  have ht2l : ((0.974235 : ℝ) * 0.974121) * 0.0000471237 ≤
      Real.cos r1 * Real.cos r2 * Real.sin x2 :=
    mul_le_mul hccl hs2l (by norm_num) hccnn
  have ht2u : Real.cos r1 * Real.cos r2 * Real.sin x2 ≤
      ((0.974510 : ℝ) * 0.974398) * 0.0000471239 :=
    mul_le_mul hccu hs2u hs2nn (by norm_num)
  have ht2nn : (0 : ℝ) ≤ Real.cos r1 * Real.cos r2 * Real.sin x2 :=
    mul_nonneg hccnn hs2nn
  have ht3l : (((0.974235 : ℝ) * 0.974121) * 0.0000471237) * 0.0000471237 ≤
      Real.cos r1 * Real.cos r2 * Real.sin x2 * Real.sin x2 :=
    mul_le_mul ht2l hs2l (by norm_num) ht2nn
  have ht3u : Real.cos r1 * Real.cos r2 * Real.sin x2 * Real.sin x2 ≤
      (((0.974510 : ℝ) * 0.974398) * 0.0000471239) * 0.0000471239 :=
    mul_le_mul ht2u hs2u hs2nn (by norm_num)
  constructor
  · linarith
  · linarith

/-- Rational window for the computed reference distance: about
3.2117 km. -/
theorem refDist_bounds : (3.2116 : ℝ) ≤ refDist ∧ refDist ≤ 3.2118 := by
  obtain ⟨hAl, hAu⟩ := havA_bounds
  have hqL : (0.00025205 : ℝ) ≤ Real.sqrt havA := by
    rw [Real.le_sqrt (by norm_num) (by linarith)]
    linarith
  have hqU : Real.sqrt havA ≤ 0.00025206 := by
    rw [Real.sqrt_le_left (by norm_num)]
    linarith
  have hcpU : Real.sqrt (1 - havA) ≤ 1 := Real.sqrt_le_one.mpr (by linarith)
  have hcpL : (0.9999999 : ℝ) ≤ Real.sqrt (1 - havA) := by
    rw [Real.le_sqrt (by norm_num) (by linarith)]
    linarith
  have hcpP : (0 : ℝ) < Real.sqrt (1 - havA) := by linarith
  have hA2 : atan2 (Real.sqrt havA) (Real.sqrt (1 - havA)) =
      arctan (Real.sqrt havA / Real.sqrt (1 - havA)) := by
    unfold atan2
    rw [if_pos hcpP]
  rw [refDist_eq, hA2]
  set u : ℝ := Real.sqrt havA / Real.sqrt (1 - havA) with hu
  have huL : (0.00025205 : ℝ) ≤ u := by
    rw [hu, le_div_iff₀ hcpP]
    nlinarith [hqL, hcpU]
  have huU : u ≤ 0.000252061 := by
    rw [hu, div_le_iff₀ hcpP]
    linarith
  have hunn : (0 : ℝ) ≤ u := by linarith
  have hthU : arctan u ≤ 0.000252061 := le_trans (arctan_le_self u hunn) huU
  have hu2 : u ^ 2 ≤ (0.000252061 : ℝ) ^ 2 := pow_le_pow_left₀ hunn huU 2
  have hden : (0 : ℝ) < 1 + u ^ 2 := by positivity
  have hfrac : (0.00025204998 : ℝ) ≤ u / (1 + u ^ 2) := by
    rw [le_div_iff₀ hden]
    nlinarith [huL, hu2]
  have hthL : (0.00025204998 : ℝ) ≤ arctan u :=
    le_trans hfrac (div_one_add_sq_le_arctan u hunn)
  constructor
  · linarith
  · linarith

/-- The fare the code computes at the reference coordinates is exactly
88.54. -/
theorem refFare : pyRound2 (50 + refDist * 12) = 88.54 := by
  obtain ⟨hdl, hdu⟩ := refDist_bounds
  unfold pyRound2
  rw [roundHalfEven_eq_of_window 8854 ((50 + refDist * 12) * 100)
    (by push_cast; linarith) (by push_cast; linarith)]
  norm_num

/-- C3 (amended): when a not-yet-completed ride at pickup
(12.9716, 77.5946) is ended, the fare is `round(50 + 12 × d, 2)` where
`d` is the haversine distance (Earth radius 6371) to the hardcoded drop
(13.0, 77.6) and the base 50 and per-km rate 12 are hardcoded literals
in `end_trip`; the distance is ≈ 3.2117 km (not ≈ 3.23), so the
computed fare is exactly 88.54 (not ≈ 88.79). -/
theorem end_trip_reference_fare (s : Store) (rid now : Nat) (r : Ride)
    (hs : s rid = some r) (hst : r.status ≠ "COMPLETED")
    (hlat : r.pickup_lat = some 12.9716) (hlon : r.pickup_long = some 77.5946) :
    (3.2116 : ℝ) ≤ refDist ∧ refDist ≤ 3.2118 ∧
    (end_trip s rid now).2 = .ok ("ended", 88.54) := by
  refine ⟨refDist_bounds.1, refDist_bounds.2, ?_⟩
  rw [end_trip_not_completed s rid now r hs hst]
  show Except.ok ("ended",
    pyRound2 (50 + calculate_distance r.pickup_lat r.pickup_long 13 77.6 * 12)) = _
  rw [hlat, hlon]
  show Except.ok ("ended", pyRound2 (50 + refDist * 12)) = _
  rw [refFare]

/-- C3 witness: ending the demo ACCEPTED ride yields fare 88.54. -/
theorem end_trip_reference_fare_witness :
    (3.2116 : ℝ) ≤ refDist ∧ refDist ≤ 3.2118 ∧
    (end_trip accStore 1 0).2 = .ok ("ended", 88.54) :=
  end_trip_reference_fare accStore 1 0 (sampleRide "ACCEPTED") rfl (by decide)
    rfl rfl

/-- C3 counterexample: ending the demo IN_PROGRESS ride at pickup
(12.9716, 77.5946) computes fare exactly 88.54, which is not the 88.79
the claim states (and, at the claim's own two-decimal precision, not
approximately 88.79 either). -/
theorem reference_fare_not_8879_cex :
    (end_trip progStore 1 0).2 = .ok ("ended", 88.54) ∧ (88.54 : ℚ) ≠ 88.79 := by
  constructor
  · rw [end_trip_not_completed progStore 1 0 (sampleRide "IN_PROGRESS") rfl
      (by decide)]
    show Except.ok ("ended", pyRound2 (50 + refDist * 12)) = _
    rw [refFare]
  · norm_num
